import Mathlib

/-!
Shallow embedding of the form-validation engine (`useFormValidation`) of the
trives-hooks repository.  JavaScript objects (`FormConfig`, `FormValues`,
`FormErrors`) are modelled as association lists in insertion order; `undefined`
lookups are modelled with `Option`.  JavaScript truthiness is modelled
explicitly where the source relies on it (`field.required &&`,
`field.minLength &&`, `field.label || name`, `field.matchField || "password"`,
`if (error)`).
-/

set_option autoImplicit false

namespace TrivesHooks

/-- The closed set of field types of the `FieldType` union in the source. -/
inductive FieldType where
  | email
  | password
  | repeatPassword
  | text
  | number
  | textarea
deriving DecidableEq

/-- The `FieldConfig` object type: every rule parameter is optional. -/
structure FieldConfig where
  type : FieldType
  label : Option String := none
  required : Option Bool := none
  minLength : Option Nat := none
  maxLength : Option Nat := none
  minSpecialChars : Option Nat := none
  minUppercase : Option Nat := none
  minNumbers : Option Nat := none
  matchField : Option String := none
deriving DecidableEq

/-- `FormConfig`: a JS object mapping field keys to `FieldConfig`, kept in
declaration order. -/
abbrev FormConfig := List (String × FieldConfig)

/-- Property lookup on a JS object modelled as an association list:
`m[k]` is `undefined` (here `none`) when the key is absent. -/
def objGet {α : Type} : List (String × α) → String → Option α
  | [], _ => none
  | p :: rest, k => if p.1 = k then some p.2 else objGet rest k

/-- The spread update `{...m, [k]: v}` on a JS object: an existing key keeps
its position and gets the new value, a new key is appended at the end. -/
def objInsert {α : Type} (m : List (String × α)) (k : String) (v : α) :
    List (String × α) :=
  if m.any (fun p => p.1 = k) then
    m.map (fun p => if p.1 = k then (k, v) else p)
  else
    m ++ [(k, v)]

/-- ASCII `[a-z]`. -/
def isAsciiLower (c : Char) : Bool := 'a' ≤ c && c ≤ 'z'

/-- ASCII `[A-Z]`, the class of `uppercaseRegex`. -/
def isAsciiUpper (c : Char) : Bool := 'A' ≤ c && c ≤ 'Z'

/-- ASCII `[0-9]`, the class of `numberRegex` and `\d`. -/
def isAsciiDigit (c : Char) : Bool := '0' ≤ c && c ≤ '9'

/-- ASCII `[a-zA-Z0-9]`. -/
def isAsciiAlphaNum (c : Char) : Bool :=
  isAsciiLower c || isAsciiUpper c || isAsciiDigit c

/-- ASCII `[a-zA-Z]`. -/
def isAsciiAlpha (c : Char) : Bool := isAsciiLower c || isAsciiUpper c

/-- Number of characters of `s` matching class `p`:
`value.match(classRegexWithFlagG)?.length || 0`. -/
def countMatches (p : Char → Bool) (s : String) : Nat :=
  (s.data.filter p).length

/-- The class `[a-zA-Z0-9._%+-]` of the local part of `emailRegex`. -/
def isLocalChar (c : Char) : Bool :=
  isAsciiAlphaNum c || c == '.' || c == '_' || c == '%' || c == '+' || c == '-'

/-- The class `[a-zA-Z0-9.-]` of the domain part of `emailRegex`. -/
def isDomainChar (c : Char) : Bool :=
  isAsciiAlphaNum c || c == '.' || c == '-'

/-- The class `[a-zA-Z0-9@._\-+]` of the allowed-character check. -/
def isEmailAllowedChar (c : Char) : Bool :=
  isAsciiAlphaNum c || c == '@' || c == '.' || c == '_' || c == '-' || c == '+'

/-- `[a-zA-Z]{2,}$`: the remaining characters form the top-level domain. -/
def tldOk (l : List Char) : Bool :=
  decide (2 ≤ l.length) && l.all isAsciiAlpha

/-- Matches `[a-zA-Z0-9.-]*\.[a-zA-Z]{2,}$` with full backtracking: at each
position either the current character is the literal dot followed by the
top-level domain, or it is consumed by the domain class. -/
def domainTail : List Char → Bool
  | [] => false
  | c :: rest => (c == '.' && tldOk rest) || (isDomainChar c && domainTail rest)

/-- Matches `[a-zA-Z0-9.-]+\.[a-zA-Z]{2,}$` (the part after the `@`). -/
def afterAtMatch : List Char → Bool
  | [] => false
  | c :: rest => isDomainChar c && domainTail rest

/-- Matches `[a-zA-Z0-9._%+-]*@[a-zA-Z0-9.-]+\.[a-zA-Z]{2,}$`. -/
def localTail : List Char → Bool
  | [] => false
  | c :: rest => (c == '@' && afterAtMatch rest) || (isLocalChar c && localTail rest)

/-- `emailRegex.test(value)` for
`/^[a-zA-Z0-9._%+-]+@[a-zA-Z0-9.-]+\.[a-zA-Z]{2,}$/`. -/
def emailRegexTest (s : String) : Bool :=
  match s.data with
  | [] => false
  | c :: rest => isLocalChar c && localTail rest

/-- `/[^a-zA-Z0-9@._\-+]/.test(value)`. -/
def hasInvalidEmailChar (s : String) : Bool :=
  s.data.any (fun c => !isEmailAllowedChar c)

/-- `/^\d+$/.test(value)`. -/
def isOnlyDigits (s : String) : Bool :=
  !s.data.isEmpty && s.data.all isAsciiDigit

/-- `/[^\d]/.test(value)`. -/
def hasNonDigit (s : String) : Bool :=
  s.data.any (fun c => !isAsciiDigit c)

/-- `field.bound && k < field.bound`: a minimum bound fires only when present
and nonzero (JS truthiness of the number) and the measured count is below it. -/
def boundMinFail (o : Option Nat) (k : Nat) : Bool :=
  match o with
  | none => false
  | some n => decide (0 < n) && decide (k < n)

/-- `field.maxLength && k > field.maxLength` with the same truthiness. -/
def boundMaxFail (o : Option Nat) (k : Nat) : Bool :=
  match o with
  | none => false
  | some n => decide (0 < n) && decide (n < k)

/-- `field.label || name`: an absent or empty label falls back to the key. -/
def labelOr (l : Option String) (name : String) : String :=
  match l with
  | none => name
  | some s => if s = "" then name else s

/-- `field.matchField || "password"`: an absent or empty `matchField` falls
back to the key `"password"`. -/
def matchTarget (f : FieldConfig) : String :=
  match f.matchField with
  | none => "password"
  | some m => if m = "" then "password" else m

/-- `validateField(name, value)`: a pure function of the configuration, the
current value store and the pair `(name, value)`.  The source is a sequence of
independent `if` blocks with early `return`; since each block is guarded by a
distinct `field.type`, the sequence is equivalent to this `if … else if` chain. -/
def validateField (config : FormConfig) (values : List (String × String))
    (name value : String) : Option String :=
  match objGet config name with
  | none => none
  | some field =>
    if field.required = some true ∧ value = "" then
      some (labelOr field.label name ++ " is required.")
    else if field.type = FieldType.email ∧ value ≠ "" ∧ emailRegexTest value = false then
      some "Invalid email format."
    else if field.type = FieldType.email ∧ value ≠ "" ∧ hasInvalidEmailChar value = true then
      some "Email contains invalid characters."
    else if field.type = FieldType.password ∧ value ≠ "" ∧
        boundMinFail field.minLength value.length = true then
      some ("Password must be at least " ++ toString (field.minLength.getD 0) ++
        " characters.")
    else if field.type = FieldType.password ∧ value ≠ "" ∧
        boundMinFail field.minSpecialChars
          (countMatches (fun c => !isAsciiAlphaNum c) value) = true then
      some ("Password must contain at least " ++ toString (field.minSpecialChars.getD 0) ++
        " special character(s).")
    else if field.type = FieldType.password ∧ value ≠ "" ∧
        boundMinFail field.minUppercase (countMatches isAsciiUpper value) = true then
      some ("Password must contain at least " ++ toString (field.minUppercase.getD 0) ++
        " uppercase letter(s).")
    else if field.type = FieldType.password ∧ value ≠ "" ∧
        boundMinFail field.minNumbers (countMatches isAsciiDigit value) = true then
      some ("Password must contain at least " ++ toString (field.minNumbers.getD 0) ++
        " number(s).")
    else if field.type = FieldType.repeatPassword ∧ value ≠ "" ∧
        objGet values (matchTarget field) ≠ some value then
      some "Passwords do not match."
    else if field.type = FieldType.text ∧ value ≠ "" ∧ isOnlyDigits value = true then
      some "Text cannot be only numbers."
    else if field.type = FieldType.text ∧ value ≠ "" ∧
        boundMinFail field.minLength value.length = true then
      some ("Text must be at least " ++ toString (field.minLength.getD 0) ++
        " characters.")
    else if field.type = FieldType.text ∧ value ≠ "" ∧
        boundMaxFail field.maxLength value.length = true then
      some ("Text must be at most " ++ toString (field.maxLength.getD 0) ++
        " characters.")
    else if field.type = FieldType.textarea ∧ value ≠ "" ∧
        boundMinFail field.minLength value.length = true then
      some ("Textarea must be at least " ++ toString (field.minLength.getD 0) ++
        " characters.")
    else if field.type = FieldType.textarea ∧ value ≠ "" ∧
        boundMaxFail field.maxLength value.length = true then
      some ("Textarea must be at most " ++ toString (field.maxLength.getD 0) ++
        " characters.")
    else if field.type = FieldType.number ∧ value ≠ "" ∧ hasNonDigit value = true then
      some "Only numbers are allowed."
    else if field.type = FieldType.number ∧ value ≠ "" ∧
        boundMinFail field.minLength value.length = true then
      some ("Number must be at least " ++ toString (field.minLength.getD 0) ++
        " digits.")
    else if field.type = FieldType.number ∧ value ≠ "" ∧
        boundMaxFail field.maxLength value.length = true then
      some ("Number must be at most " ++ toString (field.maxLength.getD 0) ++
        " digits.")
    else
      none

/-- The state owned by one `useFormValidation` instance: the value store and
the error store. -/
structure FormState where
  values : List (String × String)
  errors : List (String × Option String)
deriving DecidableEq

/-- `initialValues`: every config key mapped to the empty string, in config
order. -/
def initialValues (config : FormConfig) : List (String × String) :=
  config.map (fun p => (p.1, ""))

/-- The state at construction: `values = initialValues`, `errors = {}`. -/
def initState (config : FormConfig) : FormState :=
  { values := initialValues config, errors := [] }

/-- `handleChange`: sets `values[name] = value` and
`errors[name] = validateField(name, value)`; `validateField` reads the value
store of the current render, i.e. the store from before this update. -/
def handleChange (config : FormConfig) (st : FormState)
    (name value : String) : FormState :=
  { values := objInsert st.values name value,
    errors := objInsert st.errors name (validateField config st.values name value) }

/-- JS truthiness of an error entry: `if (error)` is taken exactly for a
present, nonempty message. -/
def strTruthy : Option String → Bool
  | none => false
  | some s => decide (s ≠ "")

/-- `validateAll()`: recomputes the whole error store from the current values
(`values[name]` being `undefined` behaves as the empty string) and returns
whether no recomputed entry is a truthy error. -/
def validateAll (config : FormConfig) (st : FormState) : Bool × FormState :=
  let newErrors := config.map
    (fun p => (p.1, validateField config st.values p.1 ((objGet st.values p.1).getD "")))
  (newErrors.all (fun p => !strTruthy p.2), { st with errors := newErrors })

/-- `reset()`: restores `initialValues` and empties the error store. -/
def reset (config : FormConfig) (_st : FormState) : FormState :=
  initState config

/-- The password configuration of the spec's password test vector. -/
def pwCfg : FormConfig :=
  [("password", { type := FieldType.password, minLength := some 8, minSpecialChars := some 1, minUppercase := some 1, minNumbers := some 2 })]

/-- A one-field email configuration. -/
def emailCfg : FormConfig := [("email", { type := FieldType.email })]

/-- A required field whose configured label is the empty string. -/
def emptyLabelCfg : FormConfig :=
  [("f", { type := FieldType.text, required := some true, label := some "" })]

/-- A required field with no label. -/
def reqNoLabelCfg : FormConfig :=
  [("f", { type := FieldType.email, required := some true })]

/-- An optional field carrying every other kind of constraint. -/
def optConstrainedCfg : FormConfig :=
  [("f", { type := FieldType.password, required := some false, minLength := some 5, maxLength := some 3, minSpecialChars := some 2, minUppercase := some 1, minNumbers := some 1, matchField := some "x" })]

/-- A one-field all-optional text configuration. -/
def textOnlyCfg : FormConfig := [("a", { type := FieldType.text })]

/-- A `repeatPassword` field whose `matchField` names a key absent from the
configuration. -/
def ghostMatchCfg : FormConfig :=
  [("rp", { type := FieldType.repeatPassword, matchField := some "ghost" })]

/-- A `repeatPassword` field whose `matchField` is the empty string, next to a
`password` field. -/
def emptyMatchCfg : FormConfig :=
  [("password", { type := FieldType.password }),
   ("rp", { type := FieldType.repeatPassword, matchField := some "" })]

/-- A password field and a repeat-password field matching it. -/
def pairCfg : FormConfig :=
  [("password", { type := FieldType.password }),
   ("repeat", { type := FieldType.repeatPassword, matchField := some "password" })]

/-- A configuration with one required and one optional field. -/
def reqOptCfg : FormConfig :=
  [("a", { type := FieldType.text, required := some true, label := some "Name" }),
   ("b", { type := FieldType.email })]

/-- An all-optional two-field configuration. -/
def optOnlyCfg : FormConfig :=
  [("a", { type := FieldType.text }), ("b", { type := FieldType.email })]

theorem objGet_map_update {α : Type} (m : List (String × α)) (k : String) (v : α) :
    objGet (m.map (fun p => if p.1 = k then (k, v) else p)) k
      = (objGet m k).map (fun _ => v) := by
  induction m with
  | nil => rfl
  | cons p rest ih =>
    by_cases h : p.1 = k
    · simp [objGet, h]
    · simp [objGet, h, ih]

theorem objGet_map_update_ne {α : Type} (m : List (String × α)) (k j : String)
    (v : α) (h : j ≠ k) :
    objGet (m.map (fun p => if p.1 = k then (k, v) else p)) j = objGet m j := by
  induction m with
  | nil => rfl
  | cons p rest ih =>
    by_cases hp : p.1 = k
    · have hkj : ¬(k = j) := fun he => h he.symm
      simp [objGet, hp, hkj, ih]
    · simp [objGet, hp, ih]

theorem objGet_append_pair_self {α : Type} (m : List (String × α)) (k : String)
    (v : α) (h : objGet m k = none) : objGet (m ++ [(k, v)]) k = some v := by
  induction m with
  | nil => simp [objGet]
  | cons p rest ih =>
    by_cases hp : p.1 = k
    · simp [objGet, hp] at h
    · simp only [objGet, hp] at h
      simp [objGet, hp, ih h]

theorem objGet_append_pair_ne {α : Type} (m : List (String × α)) (k j : String)
    (v : α) (h : j ≠ k) : objGet (m ++ [(k, v)]) j = objGet m j := by
  induction m with
  | nil =>
    have hkj : ¬(k = j) := fun he => h he.symm
    simp [objGet, hkj]
  | cons p rest ih =>
    by_cases hp : p.1 = j
    · simp [objGet, hp]
    · simp [objGet, hp, ih]

theorem objGet_none_of_any_false {α : Type} (m : List (String × α)) (k : String)
    (h : m.any (fun p => p.1 = k) = false) : objGet m k = none := by
  induction m with
  | nil => rfl
  | cons p rest ih =>
    simp only [List.any_cons, Bool.or_eq_false_iff] at h
    have hp : ¬(p.1 = k) := by simpa using h.1
    simp [objGet, hp, ih h.2]

theorem objGet_some_of_any_true {α : Type} (m : List (String × α)) (k : String)
    (h : m.any (fun p => p.1 = k) = true) : ∃ x, objGet m k = some x := by
  induction m with
  | nil => simp at h
  | cons p rest ih =>
    by_cases hp : p.1 = k
    · exact ⟨p.2, by simp [objGet, hp]⟩
    · simp only [List.any_cons, Bool.or_eq_true, decide_eq_true_eq] at h
      rcases h with h | h
      · exact absurd h hp
      · rcases ih h with ⟨x, hx⟩
        exact ⟨x, by simp [objGet, hp, hx]⟩

theorem objGet_objInsert_self {α : Type} (m : List (String × α)) (k : String)
    (v : α) : objGet (objInsert m k v) k = some v := by
  unfold objInsert
  by_cases h : m.any (fun p => p.1 = k) = true
  · rw [if_pos h, objGet_map_update]
    rcases objGet_some_of_any_true m k h with ⟨x, hx⟩
    rw [hx]
    rfl
  · rw [if_neg h]
    exact objGet_append_pair_self m k v
      (objGet_none_of_any_false m k (Bool.eq_false_iff.mpr h))

theorem objGet_objInsert_ne {α : Type} (m : List (String × α)) (k j : String)
    (v : α) (h : j ≠ k) : objGet (objInsert m k v) j = objGet m j := by
  unfold objInsert
  by_cases ha : m.any (fun p => p.1 = k) = true
  · rw [if_pos ha, objGet_map_update_ne m k j v h]
  · rw [if_neg ha, objGet_append_pair_ne m k j v h]

theorem keys_objInsert_mem {α : Type} (m : List (String × α)) (k : String)
    (v : α) (h : k ∈ m.map Prod.fst) :
    (objInsert m k v).map Prod.fst = m.map Prod.fst := by
  have ha : m.any (fun p => p.1 = k) = true := by
    rcases List.mem_map.mp h with ⟨p, hp, he⟩
    exact List.any_eq_true.mpr ⟨p, hp, by simpa using he⟩
  unfold objInsert
  rw [if_pos ha, List.map_map]
  apply List.map_congr_left
  intro p _
  by_cases hp : p.1 = k
  · simp [hp]
  · simp [hp]

theorem objGet_mapVal {β : Type} (m : FormConfig) (g : String → β) (k : String) :
    objGet (m.map (fun p => (p.1, g p.1))) k = (objGet m k).map (fun _ => g k) := by
  induction m with
  | nil => rfl
  | cons p rest ih =>
    by_cases hp : p.1 = k
    · subst hp; simp [objGet]
    · simp [objGet, hp, ih]

theorem objGet_of_mem_nodup {α : Type} (m : List (String × α))
    (hnd : (m.map Prod.fst).Nodup) (p : String × α) (hp : p ∈ m) :
    objGet m p.1 = some p.2 := by
  induction m with
  | nil => simp at hp
  | cons q rest ih =>
    rw [List.map_cons, List.nodup_cons] at hnd
    rcases List.mem_cons.mp hp with hp | hp
    · subst hp; simp [objGet]
    · have hq : ¬(q.1 = p.1) := by
        intro he
        exact hnd.1 (he ▸ List.mem_map.mpr ⟨p, hp, rfl⟩)
      simp [objGet, hq, ih hnd.2 hp]

theorem append_ne_empty_of_ne (s t : String) (ht : t ≠ "") : s ++ t ≠ "" := by
  intro h
  apply ht
  have h2 := congrArg String.data h
  rw [String.data_append] at h2
  have h3 : t.data = [] := (List.append_eq_nil.mp h2).2
  exact String.ext h3

theorem validateField_empty_value (config : FormConfig)
    (values : List (String × String)) (name : String) (f : FieldConfig)
    (h : objGet config name = some f) :
    validateField config values name ""
      = if f.required = some true then some (labelOr f.label name ++ " is required.")
        else none := by
  unfold validateField
  rw [h]
  simp

/-- C1: a field whose `required` is absent or `false` validates the empty
string to no error, for every value store and regardless of any other
configured constraint. -/
theorem C1_optional_empty_no_error (config : FormConfig)
    (values : List (String × String)) (name : String) (f : FieldConfig)
    (h : objGet config name = some f) (hreq : f.required ≠ some true) :
    validateField config values name "" = none := by
  rw [validateField_empty_value config values name f h, if_neg hreq]

/-- Witness for C1 on a password field carrying every other constraint. -/
theorem C1_optional_empty_no_error_witness :
    validateField optConstrainedCfg [] "f" "" = none :=
  C1_optional_empty_no_error optConstrainedCfg [] "f"
    { type := FieldType.password, required := some false, minLength := some 5, maxLength := some 3, minSpecialChars := some 2, minUppercase := some 1, minNumbers := some 1, matchField := some "x" }
    (by decide) (by decide)

/-- C2 counterexample: with a configured label that is the empty string, the
required error uses the field's key, not the configured label, so the message
is not the claimed `"<label> is required."`. -/
theorem C2_required_label_counterexample :
    validateField emptyLabelCfg [] "f" "" = some "f is required."
    ∧ "f is required." ≠ " is required." :=
  ⟨by decide, by decide⟩

/-- C2 amended: a required field validates the empty string to the error
`"<label> is required."`, where the label falls back to the field's key when
it is absent or empty (`field.label || name`); with the empty value no
type-specific rule can fire, so this error wins. -/
theorem C2_required_error_amended (config : FormConfig)
    (values : List (String × String)) (name : String) (f : FieldConfig)
    (h : objGet config name = some f) (hreq : f.required = some true) :
    validateField config values name ""
      = some (labelOr f.label name ++ " is required.") := by
  rw [validateField_empty_value config values name f h, if_pos hreq]

/-- Witness for the amended C2 on a required field without a label. -/
theorem C2_required_error_amended_witness :
    validateField reqNoLabelCfg [] "f" "" = some "f is required." := by
  have h := C2_required_error_amended reqNoLabelCfg [] "f"
    { type := FieldType.email, required := some true } (by decide) rfl
  simpa [labelOr] using h

/-- C6: a single-field update changes only that field's entries in the two
stores; every other key's value and error entry is retained, so a
repeat-password field matching the updated field keeps its stale error (the
concrete conjuncts exhibit the staleness: after the password is updated to
match, the repeat field's stored error still says mismatch although a fresh
validation of it succeeds). -/
theorem C6_update_frame :
    (∀ (config : FormConfig) (st : FormState) (n v k : String), k ≠ n →
      objGet (handleChange config st n v).values k = objGet st.values k
      ∧ objGet (handleChange config st n v).errors k = objGet st.errors k)
    ∧ objGet (handleChange pairCfg (handleChange pairCfg (initState pairCfg) "repeat" "x") "password" "x").errors "repeat" = some (some "Passwords do not match.")
    ∧ validateField pairCfg (handleChange pairCfg (handleChange pairCfg (initState pairCfg) "repeat" "x") "password" "x").values "repeat" "x" = none := by
  refine ⟨?_, by decide, by decide⟩
  intro config st n v k hk
  exact ⟨objGet_objInsert_ne st.values n k v hk, objGet_objInsert_ne st.errors n k _ hk⟩

/-- Witness for C6: updating the repeat field leaves the password value
entry as it was. -/
theorem C6_update_frame_witness :
    objGet (handleChange pairCfg (initState pairCfg) "repeat" "x").values "password"
      = some "" := by
  have h := (C6_update_frame.1 pairCfg (initState pairCfg) "repeat" "x" "password"
    (by decide)).1
  rw [h]
  decide

/-- C7 counterexample: an update with an unconfigured name adds that name to
the value store, so the key set of `FormValues` is no longer the key set of
`FormConfig`. -/
theorem C7_keyset_counterexample :
    (handleChange textOnlyCfg (initState textOnlyCfg) "zzz" "v").values.map Prod.fst = ["a", "zzz"]
    ∧ textOnlyCfg.map Prod.fst = ["a"]
    ∧ "zzz" ∉ textOnlyCfg.map Prod.fst :=
  ⟨by decide, by decide, by decide⟩

/-- C7 amended: the key set of `FormValues` equals the key set of
`FormConfig` at construction and after `reset`, and is preserved by
`validateAll` and by updates whose field name is configured; an update with an
unconfigured name instead appends that name (the counterexample). -/
theorem C7_keyset_amended (config : FormConfig) (st : FormState) (n v : String)
    (hinv : st.values.map Prod.fst = config.map Prod.fst)
    (hn : n ∈ config.map Prod.fst) :
    (initState config).values.map Prod.fst = config.map Prod.fst
    ∧ (reset config st).values.map Prod.fst = config.map Prod.fst
    ∧ (handleChange config st n v).values.map Prod.fst = config.map Prod.fst
    ∧ (validateAll config st).2.values.map Prod.fst = config.map Prod.fst := by
  have hinit : (initState config).values.map Prod.fst = config.map Prod.fst := by
    show (initialValues config).map Prod.fst = config.map Prod.fst
    unfold initialValues
    rw [List.map_map]
    rfl
  refine ⟨hinit, hinit, ?_, ?_⟩
  · show (objInsert st.values n v).map Prod.fst = config.map Prod.fst
    rw [keys_objInsert_mem st.values n v (by rw [hinv]; exact hn), hinv]
  · exact hinv

/-- Witness for the amended C7 on a configured-name update. -/
theorem C7_keyset_amended_witness :
    (handleChange textOnlyCfg (initState textOnlyCfg) "a" "v").values.map Prod.fst
      = textOnlyCfg.map Prod.fst :=
  (C7_keyset_amended textOnlyCfg (initState textOnlyCfg) "a" "v"
    (by decide) (by decide)).2.2.1

/-- C9: an update with an unconfigured name is not a no-op: it writes the
value entry and a `null` error entry for that name (since `validateField`
returns `null` for an unknown name) while leaving every other key's entries
unchanged. -/
theorem C9_unknown_update (config : FormConfig) (st : FormState) (n v : String)
    (h : objGet config n = none) :
    objGet (handleChange config st n v).values n = some v
    ∧ objGet (handleChange config st n v).errors n = some none
    ∧ ∀ k, k ≠ n → objGet (handleChange config st n v).values k = objGet st.values k
        ∧ objGet (handleChange config st n v).errors k = objGet st.errors k := by
  refine ⟨?_, ?_, ?_⟩
  · exact objGet_objInsert_self st.values n v
  · have hv : validateField config st.values n v = none := by
      unfold validateField
      rw [h]
    show objGet (objInsert st.errors n (validateField config st.values n v)) n = some none
    rw [hv]
    exact objGet_objInsert_self st.errors n none
  · intro k hk
    exact ⟨objGet_objInsert_ne st.values n k v hk, objGet_objInsert_ne st.errors n k _ hk⟩

/-- Witness for C9 on a one-field config and the unknown name `"zzz"`. -/
theorem C9_unknown_update_witness :
    objGet (handleChange textOnlyCfg (initState textOnlyCfg) "zzz" "v").values "zzz" = some "v"
    ∧ objGet (handleChange textOnlyCfg (initState textOnlyCfg) "zzz" "v").errors "zzz" = some none := by
  have h := C9_unknown_update textOnlyCfg (initState textOnlyCfg) "zzz" "v" (by decide)
  exact ⟨h.1, h.2.1⟩

theorem validateField_email_rules (config : FormConfig)
    (vs : List (String × String)) (name value : String) (field : FieldConfig)
    (h : objGet config name = some field) (htype : field.type = FieldType.email)
    (hv : value ≠ "") :
    validateField config vs name value
      = if emailRegexTest value = false then some "Invalid email format."
        else if hasInvalidEmailChar value = true then some "Email contains invalid characters."
        else none := by
  unfold validateField
  rw [h]
  simp [htype, hv]

theorem validateField_password_rules (config : FormConfig)
    (vs : List (String × String)) (name value : String) (field : FieldConfig)
    (h : objGet config name = some field) (htype : field.type = FieldType.password)
    (hv : value ≠ "") :
    validateField config vs name value
      = if boundMinFail field.minLength value.length = true then
          some ("Password must be at least " ++ toString (field.minLength.getD 0) ++ " characters.")
        else if boundMinFail field.minSpecialChars (countMatches (fun c => !isAsciiAlphaNum c) value) = true then
          some ("Password must contain at least " ++ toString (field.minSpecialChars.getD 0) ++ " special character(s).")
        else if boundMinFail field.minUppercase (countMatches isAsciiUpper value) = true then
          some ("Password must contain at least " ++ toString (field.minUppercase.getD 0) ++ " uppercase letter(s).")
        else if boundMinFail field.minNumbers (countMatches isAsciiDigit value) = true then
          some ("Password must contain at least " ++ toString (field.minNumbers.getD 0) ++ " number(s).")
        else none := by
  unfold validateField
  rw [h]
  simp [htype, hv]

/-- C3: on the spec's password configuration the three test vectors produce
the claimed results, and the four password checks fire in the fixed order
minLength, minSpecialChars, minUppercase, minNumbers, the first failing check
winning. -/
theorem C3_password_rules :
    (validateField pwCfg [] "password" "abcdefgh"
      = some "Password must contain at least 1 special character(s).")
    ∧ (validateField pwCfg [] "password" "Abcdef1!"
      = some "Password must contain at least 2 number(s).")
    ∧ (validateField pwCfg [] "password" "Abcdef12!" = none)
    ∧ (∀ (vs : List (String × String)) (value : String), value ≠ "" →
        value.length < 8 →
        validateField pwCfg vs "password" value
          = some "Password must be at least 8 characters.")
    ∧ (∀ (vs : List (String × String)) (value : String), 8 ≤ value.length →
        countMatches (fun c => !isAsciiAlphaNum c) value < 1 →
        validateField pwCfg vs "password" value
          = some "Password must contain at least 1 special character(s).")
    ∧ (∀ (vs : List (String × String)) (value : String), 8 ≤ value.length →
        1 ≤ countMatches (fun c => !isAsciiAlphaNum c) value →
        countMatches isAsciiUpper value < 1 →
        validateField pwCfg vs "password" value
          = some "Password must contain at least 1 uppercase letter(s).")
    ∧ (∀ (vs : List (String × String)) (value : String), 8 ≤ value.length →
        1 ≤ countMatches (fun c => !isAsciiAlphaNum c) value →
        1 ≤ countMatches isAsciiUpper value →
        countMatches isAsciiDigit value < 2 →
        validateField pwCfg vs "password" value
          = some "Password must contain at least 2 number(s).")
    ∧ (∀ (vs : List (String × String)) (value : String), 8 ≤ value.length →
        1 ≤ countMatches (fun c => !isAsciiAlphaNum c) value →
        1 ≤ countMatches isAsciiUpper value →
        2 ≤ countMatches isAsciiDigit value →
        validateField pwCfg vs "password" value = none) := by
  have hfld : objGet pwCfg "password"
      = some { type := FieldType.password, minLength := some 8, minSpecialChars := some 1, minUppercase := some 1, minNumbers := some 2 } := by decide
  refine ⟨by decide, by decide, by decide, ?_, ?_, ?_, ?_, ?_⟩
  · intro vs value hv hlen
    rw [validateField_password_rules pwCfg vs "password" value _ hfld rfl hv]
    simp [boundMinFail, hlen]
    decide
  · intro vs value h8 hsp
    have hv : value ≠ "" := by
      intro he
      rw [he] at h8
      exact absurd h8 (by decide)
    rw [validateField_password_rules pwCfg vs "password" value _ hfld rfl hv]
    simp [boundMinFail, Nat.not_lt.2 h8, hsp]
    decide
  · intro vs value h8 hsp hup
    have hv : value ≠ "" := by
      intro he
      rw [he] at h8
      exact absurd h8 (by decide)
    rw [validateField_password_rules pwCfg vs "password" value _ hfld rfl hv]
    simp [boundMinFail, Nat.not_lt.2 h8, Nat.not_lt.2 hsp, hup]
    decide
  · intro vs value h8 hsp hup hnum
    have hv : value ≠ "" := by
      intro he
      rw [he] at h8
      exact absurd h8 (by decide)
    rw [validateField_password_rules pwCfg vs "password" value _ hfld rfl hv]
    simp [boundMinFail, Nat.not_lt.2 h8, Nat.not_lt.2 hsp, Nat.not_lt.2 hup, hnum]
    decide
  · intro vs value h8 hsp hup hnum
    have hv : value ≠ "" := by
      intro he
      rw [he] at h8
      exact absurd h8 (by decide)
    rw [validateField_password_rules pwCfg vs "password" value _ hfld rfl hv]
    simp [boundMinFail, Nat.not_lt.2 h8, Nat.not_lt.2 hsp, Nat.not_lt.2 hup, Nat.not_lt.2 hnum]

/-- Witness for C3 on a too-short password. -/
theorem C3_password_rules_witness :
    validateField pwCfg [] "password" "abc"
      = some "Password must be at least 8 characters." :=
  C3_password_rules.2.2.2.1 [] "abc" (by decide) (by decide)

/-- C4 counterexample: on `"a@b.com!"` the code returns the format error, not
the claimed character-set error, because the trailing `!` already makes the
anchored format regex fail. -/
theorem C4_email_counterexample :
    validateField emailCfg [] "email" "a@b.com!" = some "Invalid email format."
    ∧ "Invalid email format." ≠ "Email contains invalid characters." :=
  ⟨by decide, by decide⟩

/-- C4 amended: an email field validates `"a@b.com"` to no error,
`"not-an-email"` to `"Invalid email format."`, and `"a@b.com!"` also to
`"Invalid email format."` (its `!` fails the anchored format regex); the
format check precedes the character-set check and the first failure wins. -/
theorem C4_email_rules_amended :
    (validateField emailCfg [] "email" "a@b.com" = none)
    ∧ (validateField emailCfg [] "email" "not-an-email" = some "Invalid email format.")
    ∧ (validateField emailCfg [] "email" "a@b.com!" = some "Invalid email format.")
    ∧ (∀ (vs : List (String × String)) (value : String), value ≠ "" →
        emailRegexTest value = false →
        validateField emailCfg vs "email" value = some "Invalid email format.")
    ∧ (∀ (vs : List (String × String)) (value : String),
        emailRegexTest value = true → hasInvalidEmailChar value = true →
        validateField emailCfg vs "email" value = some "Email contains invalid characters.")
    ∧ (∀ (vs : List (String × String)) (value : String),
        emailRegexTest value = true → hasInvalidEmailChar value = false →
        validateField emailCfg vs "email" value = none) := by
  have hfld : objGet emailCfg "email" = some { type := FieldType.email } := by decide
  have hne : ∀ value : String, emailRegexTest value = true → value ≠ "" := by
    intro value ht he
    rw [he] at ht
    exact absurd ht (by decide)
  refine ⟨by decide, by decide, by decide, ?_, ?_, ?_⟩
  · intro vs value hv hfmt
    rw [validateField_email_rules emailCfg vs "email" value _ hfld rfl hv]
    simp [hfmt]
  · intro vs value hfmt hchar
    rw [validateField_email_rules emailCfg vs "email" value _ hfld rfl (hne value hfmt)]
    simp [hfmt, hchar]
  · intro vs value hfmt hchar
    rw [validateField_email_rules emailCfg vs "email" value _ hfld rfl (hne value hfmt)]
    simp [hfmt, hchar]

/-- Witness for the amended C4 on a format failure. -/
theorem C4_email_rules_amended_witness :
    validateField emailCfg [] "email" "nope" = some "Invalid email format." :=
  C4_email_rules_amended.2.2.2.1 [] "nope" (by decide) (by decide)

/-- C10: the character-set error branch is reachable — `"a%b@c.com"` passes
the format regex (whose local part admits `%`) but fails the allowed-character
check — and the branch only fires for values that first pass the format
check. -/
theorem C10_charset_reachable :
    validateField emailCfg [] "email" "a%b@c.com" = some "Email contains invalid characters."
    ∧ (∀ (vs : List (String × String)) (value : String),
        validateField emailCfg vs "email" value = some "Email contains invalid characters." →
        emailRegexTest value = true) := by
  have hfld : objGet emailCfg "email" = some { type := FieldType.email } := by decide
  refine ⟨by decide, ?_⟩
  intro vs value h
  by_cases hv : value = ""
  · rw [hv, validateField_empty_value emailCfg vs "email" _ hfld] at h
    simp at h
  · by_cases hfmt : emailRegexTest value = true
    · exact hfmt
    · have hfmt2 : emailRegexTest value = false := Bool.eq_false_iff.mpr hfmt
      rw [validateField_email_rules emailCfg vs "email" value _ hfld rfl hv,
        if_pos hfmt2] at h
      exact absurd h (by decide)

/-- Witness for C10: the exhibited value passes the format check. -/
theorem C10_charset_reachable_witness : emailRegexTest "a%b@c.com" = true :=
  C10_charset_reachable.2 [] "a%b@c.com" (by decide)

/-- C8 counterexample: a dangling `matchField` does not always produce the
mismatch error on a non-empty value — the comparison reads the value STORE,
which can hold the dangling key (reachable via an unknown-name update), and an
empty `matchField` falls back to `"password"` although it names a key absent
from the config. -/
theorem C8_dangling_counterexample :
    (("x" : String) ≠ ""
      ∧ objGet ghostMatchCfg "ghost" = none
      ∧ validateField ghostMatchCfg [("ghost", "x")] "rp" "x" = none)
    ∧ (objGet emptyMatchCfg "" = none
      ∧ validateField emptyMatchCfg [("password", "x"), ("rp", "")] "rp" "x" = none) :=
  ⟨⟨by decide, by decide, by decide⟩, ⟨by decide, by decide⟩⟩

/-- C8 amended: a `repeatPassword` field whose nonempty `matchField` names a
key absent from the config validates every non-empty value to
`"Passwords do not match."`, provided the value store also has no entry for
that key (as in every state whose updates used configured names only); the
comparison target then resolves to `undefined`. -/
theorem C8_dangling_amended (config : FormConfig) (values : List (String × String))
    (name value m : String) (f : FieldConfig)
    (h : objGet config name = some f) (htype : f.type = FieldType.repeatPassword)
    (hm : f.matchField = some m) (hm0 : m ≠ "")
    (_hcfg : objGet config m = none) (hvals : objGet values m = none)
    (hv : value ≠ "") :
    validateField config values name value = some "Passwords do not match." := by
  have htarget : matchTarget f = m := by
    unfold matchTarget
    rw [hm]
    exact if_neg hm0
  unfold validateField
  rw [h]
  simp [htype, hv, htarget, hvals]

/-- Witness for the amended C8 on the ghost-match configuration with an empty
value store. -/
theorem C8_dangling_amended_witness :
    validateField ghostMatchCfg [] "rp" "x" = some "Passwords do not match." :=
  C8_dangling_amended ghostMatchCfg [] "rp" "x" "ghost"
    { type := FieldType.repeatPassword, matchField := some "ghost" }
    (by decide) rfl rfl (by decide) (by decide) (by decide) (by decide)

/-- C5: after `reset`, `validateAll` returns `valid = false` together with a
required-error entry for every `required` field whenever at least one field is
required, and returns `valid = true` on an all-optional configuration. -/
theorem C5_reset_validateAll (config : FormConfig) (st : FormState)
    (hnd : (config.map Prod.fst).Nodup) :
    ((∃ p ∈ config, p.2.required = some true) →
      (validateAll config (reset config st)).1 = false
      ∧ ∀ p ∈ config, p.2.required = some true →
          objGet (validateAll config (reset config st)).2.errors p.1
            = some (some (labelOr p.2.label p.1 ++ " is required.")))
    ∧ ((∀ p ∈ config, p.2.required ≠ some true) →
      (validateAll config (reset config st)).1 = true) := by
  have hval : ∀ k : String, (objGet (initialValues config) k).getD "" = "" := by
    intro k
    unfold initialValues
    rw [objGet_mapVal config (fun _ => "") k]
    cases objGet config k <;> rfl
  have hfst : (validateAll config (reset config st)).1
      = (config.map (fun p =>
          (p.1, validateField config (initialValues config) p.1 ""))).all
        (fun p => !strTruthy p.2) := by
    unfold validateAll reset initState
    simp only [hval]
  have hsnd : (validateAll config (reset config st)).2.errors
      = config.map (fun p =>
          (p.1, validateField config (initialValues config) p.1 "")) := by
    unfold validateAll reset initState
    simp only [hval]
  have hE : ∀ p, p ∈ config → p.2.required = some true →
      validateField config (initialValues config) p.1 ""
        = some (labelOr p.2.label p.1 ++ " is required.") := by
    intro p hp hreq
    rw [validateField_empty_value config (initialValues config) p.1 p.2
      (objGet_of_mem_nodup config hnd p hp), if_pos hreq]
  have hEn : ∀ p, p ∈ config → p.2.required ≠ some true →
      validateField config (initialValues config) p.1 "" = none := by
    intro p hp hreq
    rw [validateField_empty_value config (initialValues config) p.1 p.2
      (objGet_of_mem_nodup config hnd p hp), if_neg hreq]
  constructor
  · rintro ⟨p, hp, hreq⟩
    constructor
    · rw [hfst]
      apply Bool.eq_false_iff.mpr
      intro hall
      rw [List.all_eq_true] at hall
      have hmem := hall (p.1, validateField config (initialValues config) p.1 "")
        (List.mem_map.mpr ⟨p, hp, rfl⟩)
      rw [hE p hp hreq] at hmem
      have hne : labelOr p.2.label p.1 ++ " is required." ≠ "" :=
        append_ne_empty_of_ne (labelOr p.2.label p.1) " is required." (by decide)
      simp [strTruthy, hne] at hmem
    · intro q hq hqreq
      rw [hsnd, objGet_mapVal config
        (fun k => validateField config (initialValues config) k "") q.1]
      have hq2 : objGet config q.1 = some q.2 := objGet_of_mem_nodup config hnd q hq
      rw [hq2]
      show some (validateField config (initialValues config) q.1 "")
        = some (some (labelOr q.2.label q.1 ++ " is required."))
      rw [hE q hq hqreq]
  · intro hopt
    rw [hfst]
    apply List.all_eq_true.mpr
    intro x hx
    rcases List.mem_map.mp hx with ⟨q, hq, rfl⟩
    rw [hEn q hq (hopt q hq)]
    rfl

/-- Witness for C5 on a config with one required field and on an all-optional
config. -/
theorem C5_reset_validateAll_witness :
    (validateAll reqOptCfg (reset reqOptCfg (initState reqOptCfg))).1 = false
    ∧ objGet (validateAll reqOptCfg (reset reqOptCfg (initState reqOptCfg))).2.errors "a"
        = some (some "Name is required.")
    ∧ (validateAll optOnlyCfg (reset optOnlyCfg (initState optOnlyCfg))).1 = true := by
  have h1 := (C5_reset_validateAll reqOptCfg (initState reqOptCfg) (by decide)).1
    ⟨("a", { type := FieldType.text, required := some true, label := some "Name" }),
     by decide, rfl⟩
  refine ⟨h1.1, ?_, ?_⟩
  · have h2 := h1.2 ("a", { type := FieldType.text, required := some true, label := some "Name" })
      (by decide) rfl
    exact h2.trans (by decide)
  · exact (C5_reset_validateAll optOnlyCfg (initState optOnlyCfg) (by decide)).2 (by decide)

end TrivesHooks
